import Mathlib

/-!
# Verification of the MacHPCCluster job queue manager

A shallow embedding of `src/job_manager.py`: the JSON-file job store
(`load_jobs` / `save_jobs` / `atomic_write`), the queue-manager operations
(`submit_job`, `cancel_job`) and one scan pass of the runner daemon
(`run_jobs`), together with proofs and refutations of the specified
properties.

Modelling conventions:
* Python strings are Lean `String`s; Python slicing `s[:k]` is `pyTake`.
* Timestamps are `Int` (the Python code uses `time.time()` floats; only
  ordering and arithmetic matter to the claims).  Every `time.time()` call
  in the daemon consumes one tick of an abstract clock `clock : Nat → Int`.
* The store file is a `FileContent`: absent, unparseable (`garbage`), or a
  parsed JSON value.  `json.dump`/`json.load` round-trip parsed values, so
  the file body is modelled as the JSON tree itself.
* Nondeterministic OS interactions (uuid generation, process liveness,
  `Popen` success, exit codes, `os.rename` success, signal delivery) are
  oracle inputs to the embedded functions.
-/

/-! ## Data model and store -/

/-- JSON values, as produced by Python's `json` module for the job table. -/
inductive JsonVal where
  | null
  | str (s : String)
  | num (n : Int)
  | arr (xs : List JsonVal)
  | obj (fields : List (String × JsonVal))

/-- Key lookup on a JSON object, as Python dict indexing after `json.load`. -/
def JsonVal.getKey : JsonVal → String → Option JsonVal
  | .obj fs, k => fs.lookup k
  | _, _ => none

/-- A job record: the dict built by `submit_job` in `src/job_manager.py`
(fields `id`, `name`, `cmd`, `state`, `pid`, `submit_time`, `start_time`,
`end_time`, `timeout`). -/
structure Job where
  id : String
  name : String
  cmd : String
  state : String
  pid : Option Int
  submit_time : Int
  start_time : Option Int
  end_time : Option Int
  timeout : Int
deriving DecidableEq, Repr

/-- Encoding of one job record as the JSON object `json.dump` writes. -/
def encodeJob (j : Job) : JsonVal :=
  .obj [("id", .str j.id), ("name", .str j.name), ("cmd", .str j.cmd),
        ("state", .str j.state),
        ("pid", match j.pid with | none => .null | some p => .num p),
        ("submit_time", .num j.submit_time),
        ("start_time", match j.start_time with | none => .null | some t => .num t),
        ("end_time", match j.end_time with | none => .null | some t => .num t),
        ("timeout", .num j.timeout)]

/-- Read a mandatory string field. -/
def decodeStr : Option JsonVal → Option String
  | some (.str s) => some s
  | _ => none

/-- Read a mandatory numeric field. -/
def decodeNum : Option JsonVal → Option Int
  | some (.num n) => some n
  | _ => none

/-- Read a nullable numeric field. -/
def decodeOptNum : Option JsonVal → Option (Option Int)
  | some .null => some none
  | some (.num n) => some (some n)
  | _ => none

/-- Decoding of one job record from its JSON object. -/
def decodeJob (v : JsonVal) : Option Job :=
  match decodeStr (v.getKey "id"), decodeStr (v.getKey "name"),
        decodeStr (v.getKey "cmd"), decodeStr (v.getKey "state"),
        decodeOptNum (v.getKey "pid"), decodeNum (v.getKey "submit_time"),
        decodeOptNum (v.getKey "start_time"), decodeOptNum (v.getKey "end_time"),
        decodeNum (v.getKey "timeout") with
  | some i, some nm, some c, some st, some p, some sub, some sta, some en, some tmo =>
      some ⟨i, nm, c, st, p, sub, sta, en, tmo⟩
  | _, _, _, _, _, _, _, _, _ => none

/-- The job table as the JSON array `json.dump(jobs, f)` writes. -/
def encodeJobs (jobs : List Job) : JsonVal :=
  .arr (jobs.map encodeJob)

/-- Decode a list of job objects; fails if any element is malformed. -/
def decodeJobList : List JsonVal → Option (List Job)
  | [] => some []
  | v :: vs =>
      match decodeJob v, decodeJobList vs with
      | some j, some js => some (j :: js)
      | _, _ => none

/-- Decode the whole job table from the file's JSON value. -/
def decodeJobs : JsonVal → Option (List Job)
  | .arr xs => decodeJobList xs
  | _ => none

/-- State of the backing store file `jobs/queue.json`: absent, present but
not parseable as JSON (`json.load` raises), or present with parsed body. -/
inductive FileContent where
  | absent
  | garbage
  | content (v : JsonVal)

/-- `load_jobs` (src/job_manager.py lines 36–44): missing file yields `[]`;
a file that fails to parse is swallowed by the bare `except:` and also
yields `[]`. -/
def load_jobs : FileContent → List Job
  | .absent => []
  | .garbage => []
  | .content v => (decodeJobs v).getD []

/-- `save_jobs` (lines 47–49): `atomic_write` replaces the file body with
the JSON dump of the table in one atomic rename. -/
def save_jobs (jobs : List Job) : FileContent :=
  .content (encodeJobs jobs)

/-! ## Queue manager: submit -/

/-- Python string slicing `s[:k]`. -/
def pyTake (k : Nat) (s : String) : String :=
  String.mk (s.data.take k)

/-- Python `a or b` on an optional string argument: `None` and `""` are
falsy, anything else is itself. -/
def pyOrStr (a : Option String) (b : String) : String :=
  match a with
  | none => b
  | some s => if s = "" then b else s

/-- One lowercase hex digit. -/
def hexChar (n : Nat) : Char :=
  if n < 10 then Char.ofNat (48 + n) else Char.ofNat (87 + n)

/-- The low `w` hex digits of `n`, most significant first (zero-padded). -/
def hexChars : Nat → Nat → List Char
  | 0, _ => []
  | w + 1, n => hexChars w (n / 16) ++ [hexChar (n % 16)]

/-- `str(uuid.uuid4())` for a 128-bit value `n`: 32 lowercase hex digits in
the canonical 8-4-4-4-12 grouping, 36 characters in all. -/
def uuid4_str (n : Nat) : String :=
  String.mk (hexChars 8 (n / 16 ^ 24) ++ ['-'] ++ hexChars 4 (n / 16 ^ 20) ++ ['-'] ++
    hexChars 4 (n / 16 ^ 16) ++ ['-'] ++ hexChars 4 (n / 16 ^ 12) ++ ['-'] ++ hexChars 12 n)

/-- The job record `submit_job` builds (lines 64–74): id is
`str(uuid.uuid4())[:8]`, name defaults to `command[:50]`, state `queued`,
no pid and no start/end times, `submit_time = time.time()`. -/
def mkJob (uuidN : Nat) (command : String) (name : Option String)
    (timeout : Int) (now : Int) : Job :=
  { id := pyTake 8 (uuid4_str uuidN)
    name := pyOrStr name (pyTake 50 command)
    cmd := command
    state := "queued"
    pid := none
    submit_time := now
    start_time := none
    end_time := none
    timeout := timeout }

/-- `submit_job` (lines 52–83): build the record, load the table, append,
save; return the new id.  The freshly generated uuid value and the clock
reading are oracle inputs. -/
def submit_job (uuidN : Nat) (command : String) (name : Option String)
    (timeout : Int) (now : Int) (fs : FileContent) : String × FileContent :=
  let job := mkJob uuidN command name timeout now
  let jobs := load_jobs fs
  (job.id, save_jobs (jobs ++ [job]))

/-- Arguments of one `submit_job` call, uuid and clock oracles included. -/
structure SubmitReq where
  uuidN : Nat
  command : String
  name : Option String
  timeout : Int
  now : Int
deriving DecidableEq, Repr

/-- A sequence of `submit_job` calls against the store. -/
def submit_many (reqs : List SubmitReq) (fs : FileContent) : FileContent :=
  reqs.foldl (fun fs r => (submit_job r.uuidN r.command r.name r.timeout r.now fs).2) fs

/-! ## Queue manager: cancel -/

/-- Outcome reported by `cancel_job` (its printed messages). -/
inductive CancelOutcome where
  | notFound
  | cancelled
  | cancelFailed
  | alreadyTerminal
deriving DecidableEq, Repr

/-- Replace the first record whose id matches, as the Python code's
in-place mutation of the record found by `next(...)`. -/
def updateFirstJob (jid : String) (f : Job → Job) : List Job → List Job
  | [] => []
  | j :: js => if j.id == jid then f j :: js else j :: updateFirstJob jid f js

/-- `cancel_job` (lines 134–156).  `killOk` is the oracle for whether
`os.kill(pid, SIGTERM)` succeeds; a `running` record with no pid raises in
`os.kill` and is likewise caught by the bare `except:`.  The table is saved
only on the success paths. -/
def cancel_job (killOk : Bool) (jid : String) (fs : FileContent) :
    CancelOutcome × FileContent :=
  let jobs := load_jobs fs
  match jobs.find? (fun j => j.id == jid) with
  | none => (.notFound, fs)
  | some job =>
    if job.state = "queued" then
      (.cancelled, save_jobs (updateFirstJob jid (fun j => { j with state := "cancelled" }) jobs))
    else if job.state = "running" then
      match job.pid with
      | none => (.cancelFailed, fs)
      | some _ =>
        if killOk then
          (.cancelled, save_jobs (updateFirstJob jid (fun j => { j with state := "cancelled" }) jobs))
        else (.cancelFailed, fs)
    else (.alreadyTerminal, fs)

/-! ## Runner daemon: one scan pass

`run_jobs` loads the table and iterates over the records; for each record
it runs the orphan check, the start-and-wait block, and the timeout check.
The per-record OS interactions are collected in `JobEnv`; `PassState`
threads the in-memory table, the persisted file, the clock tick counter and
the trace of successfully launched record indices. -/

/-- Oracle for the OS interactions of one record during one pass. -/
structure JobEnv where
  /-- `os.kill(pid, 0)` succeeds at the orphan check. -/
  alive : Bool
  /-- `subprocess.Popen` (and the log-file `open`s) return a pid, or raise. -/
  launch : Option Int
  /-- Exit code returned by `p.wait()`. -/
  waitRet : Int
  /-- Both `os.rename` calls on the log files succeed. -/
  renameOk : Bool

/-- State threaded through a scan pass. -/
structure PassState where
  jobs : List Job
  fs : FileContent
  tick : Nat
  launches : List Nat

/-- Python truthiness of `job.get('pid')`: `None` and `0` are falsy. -/
def pidTruthy : Option Int → Bool
  | none => false
  | some p => p != 0

/-- Python truthiness of `job.get('start_time')`. -/
def timeTruthy : Option Int → Bool
  | none => false
  | some t => t != 0

/-- The `job['state'] == 'queued'` block (lines 184–221): mark running and
stamp `start_time`, launch, persist, block in `p.wait()`, stamp `end_time`,
set the final state from the exit code, rename the log files, persist.  Any
exception — a failed launch or a failed rename — lands in the `except:`
block, which overwrites the state with `failed`, restamps `end_time` and
persists. -/
def startPhase (clock : Nat → Int) (e : JobEnv) (i : Nat) (st : PassState) : PassState :=
  match st.jobs[i]? with
  | none => st
  | some job =>
    if job.state = "queued" then
      let job1 := { job with state := "running", start_time := some (clock st.tick) }
      match e.launch with
      | some pid =>
        let job2 := { job1 with pid := some pid }
        let jobs2 := st.jobs.set i job2
        let job3 := { job2 with end_time := some (clock (st.tick + 1)),
                                state := if e.waitRet = 0 then "finished" else "failed" }
        let jobs3 := jobs2.set i job3
        if e.renameOk then
          { jobs := jobs3, fs := save_jobs jobs3, tick := st.tick + 2,
            launches := st.launches ++ [i] }
        else
          let job4 := { job3 with state := "failed", end_time := some (clock (st.tick + 2)) }
          let jobs4 := jobs2.set i job4
          { jobs := jobs4, fs := save_jobs jobs4, tick := st.tick + 3,
            launches := st.launches ++ [i] }
      | none =>
        let jobF := { job1 with state := "failed", end_time := some (clock (st.tick + 1)) }
        let jobsF := st.jobs.set i jobF
        { jobs := jobsF, fs := save_jobs jobsF, tick := st.tick + 2,
          launches := st.launches }
    else st

/-- The timeout check (lines 223–234): for a `running` record with a truthy
`start_time`, read the clock once; if the elapsed time exceeds the record's
timeout, send SIGKILL (its failure is swallowed by `except: pass`), set
state `timeout`, stamp `end_time` and persist. -/
def timeoutPhase (clock : Nat → Int) (i : Nat) (st : PassState) : PassState :=
  match st.jobs[i]? with
  | none => st
  | some job =>
    if job.state = "running" ∧ timeTruthy job.start_time then
      if clock st.tick - job.start_time.getD 0 > job.timeout then
        let job1 := { job with state := "timeout", end_time := some (clock (st.tick + 1)) }
        let jobs1 := st.jobs.set i job1
        { jobs := jobs1, fs := save_jobs jobs1, tick := st.tick + 2,
          launches := st.launches }
      else { st with tick := st.tick + 1 }
    else st

/-- Processing of the record at index `i` in one pass iteration: the orphan
check (lines 172–181, with `continue` on the dead branch), then the start
block, then the timeout check. -/
def stepJob (clock : Nat → Int) (e : JobEnv) (i : Nat) (st : PassState) : PassState :=
  match st.jobs[i]? with
  | none => st
  | some job =>
    if job.state = "running" ∧ pidTruthy job.pid ∧ e.alive = false then
      let job1 := { job with state := "failed", end_time := some (clock st.tick) }
      let jobs1 := st.jobs.set i job1
      { jobs := jobs1, fs := save_jobs jobs1, tick := st.tick + 1,
        launches := st.launches }
    else
      timeoutPhase clock i (startPhase clock e i st)

/-- The first `k` iterations of the `for job in jobs:` loop. -/
def runPass (clock : Nat → Int) (envs : Nat → JobEnv) (k : Nat) (st : PassState) : PassState :=
  (List.range k).foldl (fun s i => stepJob clock (envs i) i s) st

/-- One full scan pass of `run_jobs` over the whole table. -/
def scanPass (clock : Nat → Int) (envs : Nat → JobEnv) (st : PassState) : PassState :=
  runPass clock envs st.jobs.length st

/-- Pass state at the top of the daemon loop, right after `load_jobs()`. -/
def initPass (fs : FileContent) : PassState :=
  { jobs := load_jobs fs, fs := fs, tick := 0, launches := [] }

/-! ## Concrete instances used by witnesses and counterexamples -/

/-- Concrete submissions whose uuid prefixes differ. -/
def reqA : SubmitReq := ⟨0, "echo a", none, 3600, 0⟩

/-- Second concrete submission; its uuid value has top 32 bits equal 1. -/
def reqB : SubmitReq := ⟨16 ^ 24, "echo b", none, 3600, 1⟩

/-- A concrete running record for the cancellation witnesses. -/
def jobRun : Job :=
  { id := "r1", name := "n", cmd := "c", state := "running", pid := some 42,
    submit_time := 0, start_time := some 1, end_time := none, timeout := 3600 }

/-- A concrete finished record for the terminal-cancel witness. -/
def jobFin : Job :=
  { id := "f1", name := "n", cmd := "c", state := "finished", pid := some 7,
    submit_time := 0, start_time := some 1, end_time := some 2, timeout := 3600 }

/-- The identity clock: tick `t` reads time `t`. -/
def clockId : Nat → Int := fun t => t

/-- A slow clock: 100 time units elapse between consecutive reads, standing
for a child process that runs far longer than the poll interval. -/
def clockHund : Nat → Int := fun t => 100 * t

/-- A `running` record whose process has disappeared (stale handle). -/
def jobOrp : Job :=
  { id := "o1", name := "n", cmd := "c", state := "running", pid := some 7,
    submit_time := 0, start_time := some 5, end_time := none, timeout := 3600 }

/-- Environment whose liveness probe fails: the process is gone. -/
def envDead : JobEnv :=
  { alive := false, launch := none, waitRet := 0, renameOk := true }

/-- A freshly queued record. -/
def jobQW : Job :=
  { id := "w1", name := "n", cmd := "c", state := "queued", pid := none,
    submit_time := 0, start_time := none, end_time := none, timeout := 3600 }

/-- Environment for a clean run: launch succeeds as pid 9, exit code 0,
log renames succeed. -/
def envRun : JobEnv :=
  { alive := true, launch := some 9, waitRet := 0, renameOk := true }

/-- Environment identical to `envRun` except both log renames fail. -/
def envNoRen : JobEnv :=
  { alive := true, launch := some 9, waitRet := 0, renameOk := false }

/-- A queued job with a 1-unit timeout whose command runs for 100 units. -/
def jobSleep : Job :=
  { id := "s1", name := "sleep 100", cmd := "sleep 100", state := "queued", pid := none,
    submit_time := 0, start_time := none, end_time := none, timeout := 1 }

/-- Environment for `jobSleep`: launch succeeds, exit code 0. -/
def envSleep : JobEnv :=
  { alive := true, launch := some 77, waitRet := 0, renameOk := true }

/-! ## Store round-trip -/

theorem decodeJob_encodeJob (j : Job) : decodeJob (encodeJob j) = some j := by
  rcases j with ⟨i, nm, c, st, p, sub, sta, en, tmo⟩
  cases p <;> cases sta <;> cases en <;> rfl

theorem decodeJobList_map_encodeJob (jobs : List Job) :
    decodeJobList (jobs.map encodeJob) = some jobs := by
  induction jobs with
  | nil => rfl
  | cons j js ih => simp [decodeJobList, decodeJob_encodeJob, ih]

/-- Saving any table and loading it back returns the table unchanged. -/
theorem load_save (jobs : List Job) : load_jobs (save_jobs jobs) = jobs := by
  simp [load_jobs, save_jobs, decodeJobs, encodeJobs, decodeJobList_map_encodeJob]

/-- C5: `save` followed by `load` round-trips every job table
field-for-field, including the empty, singleton and many-record cases. -/
theorem save_load_roundtrip (jobs : List Job) :
    load_jobs (save_jobs jobs) = jobs :=
  load_save jobs

/-- C2 counterexample: on a file that exists but cannot be parsed,
`load_jobs` returns the empty table, exactly as for an absent file — there
is no distinct `StoreUnavailable` failure, contradicting the claim that a
parse failure is reported rather than silently yielding an empty table. -/
theorem load_garbage_is_silent_empty :
    load_jobs FileContent.garbage = [] ∧
    load_jobs FileContent.garbage = load_jobs FileContent.absent :=
  ⟨rfl, rfl⟩

/-- C2 amended: `load()` returns the saved table when the file parses; an
absent file yields the empty table; a file that exists but cannot be parsed
also silently yields the empty table, indistinguishable from absence (the
bare `except:` reports no error). -/
theorem load_jobs_amended_behaviour :
    load_jobs FileContent.absent = [] ∧
    load_jobs FileContent.garbage = [] ∧
    ∀ jobs : List Job, load_jobs (save_jobs jobs) = jobs :=
  ⟨rfl, rfl, load_save⟩

/-! ## Submission: id shape and uniqueness -/

theorem hexChars_length (w n : Nat) : (hexChars w n).length = w := by
  induction w generalizing n with
  | zero => rfl
  | succ w ih => simp [hexChars, ih]

theorem uuid4_str_data_length (n : Nat) : (uuid4_str n).data.length = 36 := by
  simp [uuid4_str, hexChars_length]

/-- C10: whatever the command, name, timeout, clock and store contents, the
id `submit_job` returns — and stores — is exactly 8 characters, the
truncated prefix of the freshly generated uuid. -/
theorem submit_job_id_length (uuidN : Nat) (command : String) (name : Option String)
    (timeout : Int) (now : Int) (fs : FileContent) :
    (submit_job uuidN command name timeout now fs).1.length = 8 := by
  show ((uuid4_str uuidN).data.take 8).length = 8
  rw [List.length_take, uuid4_str_data_length]
  rfl

/-- A run of submissions appends, in order, exactly the records built from
the requests. -/
theorem load_submit_many (reqs : List SubmitReq) (fs : FileContent) :
    load_jobs (submit_many reqs fs) =
      load_jobs fs ++ reqs.map (fun r => mkJob r.uuidN r.command r.name r.timeout r.now) := by
  induction reqs generalizing fs with
  | nil => simp [submit_many]
  | cons r rs ih =>
      show load_jobs (submit_many rs
        (save_jobs (load_jobs fs ++ [mkJob r.uuidN r.command r.name r.timeout r.now]))) = _
      rw [ih, load_save]
      simp

/-- C6 amended: after any sequence of submissions into an empty store, the
stored ids are pairwise distinct *provided* the freshly generated uuids
have pairwise distinct 8-character prefixes; `submit_job` itself performs
no duplicate check, so colliding prefixes become colliding ids. -/
theorem submit_many_ids_nodup (reqs : List SubmitReq)
    (h : (reqs.map (fun r => pyTake 8 (uuid4_str r.uuidN))).Nodup) :
    ((load_jobs (submit_many reqs FileContent.absent)).map Job.id).Nodup := by
  rw [load_submit_many]
  show (List.map Job.id ([] ++ _)).Nodup
  rw [List.nil_append, List.map_map]
  exact h

/-- C6 counterexample: two submissions whose generated uuids are distinct
(values 1 and 2) but share their first 8 hex characters produce two stored
records with the same id "00000000" — the claim that ids are always
pairwise distinct fails on the code. -/
theorem submit_ids_collide :
    ¬ ((load_jobs ((submit_job 2 "echo b" none 3600 1
          ((submit_job 1 "echo a" none 3600 0 FileContent.absent).2)).2)).map Job.id).Nodup := by
  decide

theorem submit_many_ids_nodup_witness :
    ((load_jobs (submit_many [reqA, reqB] FileContent.absent)).map Job.id).Nodup :=
  submit_many_ids_nodup [reqA, reqB] (by decide)

/-! ## Cancellation -/

/-- Updating the found record in place preserves `find?` up to the update,
when the update keeps the id. -/
theorem find_updateFirstJob (jobs : List Job) (jid : String) (f : Job → Job) (job : Job)
    (hf : jobs.find? (fun j => j.id == jid) = some job) (hid : (f job).id = job.id) :
    (updateFirstJob jid f jobs).find? (fun j => j.id == jid) = some (f job) := by
  induction jobs with
  | nil => simp at hf
  | cons a as ih =>
      simp only [updateFirstJob]
      by_cases h : (a.id == jid) = true
      · rw [@List.find?_cons_of_pos _ (fun j => j.id == jid) a as h] at hf
        injection hf with hf
        subst hf
        rw [if_pos h]
        exact @List.find?_cons_of_pos _ (fun j => j.id == jid) (f a) as
          (by simp only [hid]; exact h)
      · rw [@List.find?_cons_of_neg _ (fun j => j.id == jid) a as h] at hf
        rw [if_neg h, @List.find?_cons_of_neg _ (fun j => j.id == jid) a
          (updateFirstJob jid f as) h]
        exact ih hf

/-- C8: cancelling a `running` job with a recorded pid: if the SIGTERM
delivery succeeds the outcome is `cancelled` and the persisted table holds
the record with state `cancelled`; if delivery fails the outcome is
`CancelFailed` and the store is returned unchanged (no save). -/
theorem cancel_running (fs : FileContent) (jid : String) (job : Job) (p : Int)
    (hfind : (load_jobs fs).find? (fun j => j.id == jid) = some job)
    (hstate : job.state = "running") (hpid : job.pid = some p) :
    cancel_job false jid fs = (CancelOutcome.cancelFailed, fs) ∧
    (cancel_job true jid fs).1 = CancelOutcome.cancelled ∧
    (load_jobs (cancel_job true jid fs).2).find? (fun j => j.id == jid) =
      some { job with state := "cancelled" } := by
  refine ⟨?_, ?_, ?_⟩
  · simp [cancel_job, hfind, hstate, hpid]
  · simp [cancel_job, hfind, hstate, hpid]
  · simp only [cancel_job, hfind, hstate, hpid]
    norm_num
    rw [load_save, ← hpid]
    exact find_updateFirstJob _ _ (fun j => { j with state := "cancelled" }) _ hfind rfl

theorem cancel_running_witness :
    cancel_job false "r1" (save_jobs [jobRun]) = (CancelOutcome.cancelFailed, save_jobs [jobRun]) ∧
    (cancel_job true "r1" (save_jobs [jobRun])).1 = CancelOutcome.cancelled ∧
    (load_jobs (cancel_job true "r1" (save_jobs [jobRun])).2).find? (fun j => j.id == "r1") =
      some { jobRun with state := "cancelled" } :=
  cancel_running (save_jobs [jobRun]) "r1" jobRun 42 (by decide) rfl rfl

/-- C9: cancelling a job whose state is neither `queued` nor `running`
(in particular any terminal state) reports `AlreadyTerminal` and returns
the store unchanged — no record is modified and nothing is saved. -/
theorem cancel_terminal (killOk : Bool) (fs : FileContent) (jid : String) (job : Job)
    (hfind : (load_jobs fs).find? (fun j => j.id == jid) = some job)
    (hq : job.state ≠ "queued") (hr : job.state ≠ "running") :
    cancel_job killOk jid fs = (CancelOutcome.alreadyTerminal, fs) := by
  simp [cancel_job, hfind, hq, hr]

theorem cancel_terminal_witness :
    cancel_job true "f1" (save_jobs [jobFin]) = (CancelOutcome.alreadyTerminal, save_jobs [jobFin]) :=
  cancel_terminal true (save_jobs [jobFin]) "f1" jobFin (by decide) (by decide) (by decide)

/-! ## Runner daemon: structural pass lemmas -/

theorem startPhase_jobs_length (clock : Nat → Int) (e : JobEnv) (i : Nat) (st : PassState) :
    (startPhase clock e i st).jobs.length = st.jobs.length := by
  unfold startPhase
  repeat' split
  all_goals simp

theorem timeoutPhase_jobs_length (clock : Nat → Int) (i : Nat) (st : PassState) :
    (timeoutPhase clock i st).jobs.length = st.jobs.length := by
  unfold timeoutPhase
  repeat' split
  all_goals simp

theorem stepJob_jobs_length (clock : Nat → Int) (e : JobEnv) (i : Nat) (st : PassState) :
    (stepJob clock e i st).jobs.length = st.jobs.length := by
  unfold stepJob
  split
  · rfl
  · split
    · simp
    · rw [timeoutPhase_jobs_length, startPhase_jobs_length]

theorem startPhase_jobs_get_ne (clock : Nat → Int) (e : JobEnv) (i j : Nat) (st : PassState)
    (h : i ≠ j) : (startPhase clock e i st).jobs[j]? = st.jobs[j]? := by
  unfold startPhase
  repeat' split
  all_goals simp [List.getElem?_set_ne h]

theorem timeoutPhase_jobs_get_ne (clock : Nat → Int) (i j : Nat) (st : PassState)
    (h : i ≠ j) : (timeoutPhase clock i st).jobs[j]? = st.jobs[j]? := by
  unfold timeoutPhase
  repeat' split
  all_goals simp [List.getElem?_set_ne h]

theorem stepJob_jobs_get_ne (clock : Nat → Int) (e : JobEnv) (i j : Nat) (st : PassState)
    (h : i ≠ j) : (stepJob clock e i st).jobs[j]? = st.jobs[j]? := by
  unfold stepJob
  split
  · rfl
  · split
    · simp [List.getElem?_set_ne h]
    · rw [timeoutPhase_jobs_get_ne _ _ _ _ h, startPhase_jobs_get_ne _ _ _ _ _ h]

theorem runPass_succ (clock : Nat → Int) (envs : Nat → JobEnv) (k : Nat) (st : PassState) :
    runPass clock envs (k + 1) st = stepJob clock (envs k) k (runPass clock envs k st) := by
  unfold runPass
  rw [List.range_succ, List.foldl_append]
  rfl

theorem runPass_jobs_length (clock : Nat → Int) (envs : Nat → JobEnv) (k : Nat) (st : PassState) :
    (runPass clock envs k st).jobs.length = st.jobs.length := by
  induction k with
  | zero => rfl
  | succ k ih => rw [runPass_succ, stepJob_jobs_length, ih]

theorem runPass_jobs_get_of_le (clock : Nat → Int) (envs : Nat → JobEnv) (k i : Nat)
    (st : PassState) (h : k ≤ i) : (runPass clock envs k st).jobs[i]? = st.jobs[i]? := by
  induction k with
  | zero => rfl
  | succ k ih =>
      rw [runPass_succ, stepJob_jobs_get_ne _ _ _ _ _ (by omega), ih (by omega)]

theorem runPass_jobs_get_final (clock : Nat → Int) (envs : Nat → JobEnv) (k i : Nat)
    (st : PassState) (h : i < k) :
    (runPass clock envs k st).jobs[i]? =
      (stepJob clock (envs i) i (runPass clock envs i st)).jobs[i]? := by
  induction k with
  | zero => omega
  | succ k ih =>
      rcases Nat.lt_succ_iff_lt_or_eq.mp h with h' | h'
      · rw [runPass_succ, stepJob_jobs_get_ne _ _ _ _ _ (by omega), ih h']
      · subst h'
        rw [runPass_succ]

theorem timeoutPhase_launches (clock : Nat → Int) (i : Nat) (st : PassState) :
    (timeoutPhase clock i st).launches = st.launches := by
  unfold timeoutPhase
  repeat' split
  all_goals rfl

theorem startPhase_launches (clock : Nat → Int) (e : JobEnv) (i : Nat) (st : PassState) :
    (startPhase clock e i st).launches = st.launches ∨
    ((startPhase clock e i st).launches = st.launches ++ [i] ∧
      ∃ jb, st.jobs[i]? = some jb ∧ jb.state = "queued") := by
  unfold startPhase
  repeat' split
  all_goals first
    | exact Or.inl rfl
    | exact Or.inr ⟨rfl, _, by assumption, by assumption⟩

theorem stepJob_launches (clock : Nat → Int) (e : JobEnv) (i : Nat) (st : PassState) :
    (stepJob clock e i st).launches = st.launches ∨
    ((stepJob clock e i st).launches = st.launches ++ [i] ∧
      ∃ jb, st.jobs[i]? = some jb ∧ jb.state = "queued") := by
  unfold stepJob
  split
  · exact Or.inl rfl
  · split
    · exact Or.inl rfl
    · rw [timeoutPhase_launches]
      exact startPhase_launches clock e i st

theorem stepJob_launches_mem (clock : Nat → Int) (e : JobEnv) (i x : Nat) (st : PassState)
    (hx : x ∈ (stepJob clock e i st).launches) :
    x ∈ st.launches ∨ (x = i ∧ ∃ jb, st.jobs[i]? = some jb ∧ jb.state = "queued") := by
  rcases stepJob_launches clock e i st with h | ⟨h, hq⟩
  · rw [h] at hx
    exact Or.inl hx
  · rw [h] at hx
    rcases List.mem_append.mp hx with hx | hx
    · exact Or.inl hx
    · exact Or.inr ⟨List.mem_singleton.mp hx, hq⟩

theorem runPass_launches_mem (clock : Nat → Int) (envs : Nat → JobEnv) (k x : Nat)
    (st : PassState) (hx : x ∈ (runPass clock envs k st).launches) :
    x ∈ st.launches ∨ ∃ jb, st.jobs[x]? = some jb ∧ jb.state = "queued" := by
  induction k with
  | zero => exact Or.inl hx
  | succ k ih =>
      rw [runPass_succ] at hx
      rcases stepJob_launches_mem _ _ _ _ _ hx with h | ⟨hxk, jb, hjb, hq⟩
      · exact ih h
      · subst hxk
        rw [runPass_jobs_get_of_le _ _ _ _ _ (le_refl x)] at hjb
        exact Or.inr ⟨jb, hjb, hq⟩

/-! ## Runner daemon: per-record behaviour -/

theorem getElem_lt_of_eq_some {l : List Job} {i : Nat} {a : Job} (h : l[i]? = some a) :
    i < l.length := by
  by_contra hc
  rw [List.getElem?_eq_none (by omega)] at h
  exact Option.noConfusion h

/-- Orphan recovery in one step: a `running` record with a truthy pid whose
process is dead becomes `failed` with `endTime` stamped from the clock. -/
theorem stepJob_orphan (clock : Nat → Int) (e : JobEnv) (i : Nat) (st : PassState)
    (job : Job) (p : Int)
    (hjob : st.jobs[i]? = some job) (hstate : job.state = "running")
    (hpid : job.pid = some p) (hp : p ≠ 0) (halive : e.alive = false) :
    (stepJob clock e i st).jobs[i]? =
      some { job with state := "failed", end_time := some (clock st.tick) } := by
  have hlt : i < st.jobs.length := getElem_lt_of_eq_some hjob
  unfold stepJob
  simp only [hjob]
  have hcond : job.state = "running" ∧ pidTruthy job.pid ∧ e.alive = false :=
    ⟨hstate, by simp [pidTruthy, hpid, hp], halive⟩
  rw [if_pos hcond]
  exact List.getElem?_set_self hlt

/-- Start-and-wait in one step: a `queued` record whose launch succeeds and
whose log renames succeed ends the step `finished` or `failed` by exit
code, with `startTime` and `endTime` from two consecutive clock reads. -/
theorem stepJob_start (clock : Nat → Int) (e : JobEnv) (i : Nat) (st : PassState)
    (job : Job) (pid : Int)
    (hjob : st.jobs[i]? = some job) (hstate : job.state = "queued")
    (hlaunch : e.launch = some pid) (hrename : e.renameOk = true) :
    (stepJob clock e i st).jobs[i]? =
      some { job with
             state := (if e.waitRet = 0 then "finished" else "failed"),
             pid := some pid, start_time := some (clock st.tick),
             end_time := some (clock (st.tick + 1)) } := by
  have hlt : i < st.jobs.length := getElem_lt_of_eq_some hjob
  have hns : ¬ (job.state = "running" ∧ pidTruthy job.pid ∧ e.alive = false) := by
    rintro ⟨h1, -, -⟩
    rw [hstate] at h1
    exact absurd h1 (by decide)
  have hlt2 : i < (st.jobs.set i
      { job with state := "running", start_time := some (clock st.tick),
                 pid := some pid }).length := by
    simpa using hlt
  have hnr : ¬ ((if e.waitRet = 0 then "finished" else "failed") = "running" ∧
      timeTruthy (some (clock st.tick))) := by
    rintro ⟨h1, -⟩
    by_cases hw : e.waitRet = 0 <;> simp [hw] at h1
  unfold stepJob
  simp only [hjob]
  rw [if_neg hns]
  unfold startPhase
  simp only [hjob]
  rw [if_pos hstate]
  simp only [hlaunch]
  rw [if_pos hrename]
  unfold timeoutPhase
  simp only [List.getElem?_set_self hlt2]
  rw [if_neg hnr]
  simp only [List.getElem?_set_self hlt2]

/-! ## Runner daemon: claim theorems -/

/-- C3: a `running` record whose recorded pid is truthy but whose process
is dead (stale handle, as after a daemon crash-restart) is transitioned to
`failed` with `endTime` stamped from the clock by the scan pass, and the
pass never launches that record's command (its index is absent from the
launch trace, which starts empty). -/
theorem orphan_recovery (clock : Nat → Int) (envs : Nat → JobEnv) (st : PassState)
    (i : Nat) (job : Job) (p : Int)
    (hjob : st.jobs[i]? = some job) (hstate : job.state = "running")
    (hpid : job.pid = some p) (hp : p ≠ 0) (halive : (envs i).alive = false)
    (hlaunches : st.launches = []) :
    (∃ t, (scanPass clock envs st).jobs[i]? =
        some { job with state := "failed", end_time := some (clock t) }) ∧
    i ∉ (scanPass clock envs st).launches := by
  have hlt : i < st.jobs.length := getElem_lt_of_eq_some hjob
  have hfront : (runPass clock envs i st).jobs[i]? = some job := by
    rw [runPass_jobs_get_of_le _ _ _ _ _ (le_refl i)]
    exact hjob
  constructor
  · refine ⟨(runPass clock envs i st).tick, ?_⟩
    unfold scanPass
    rw [runPass_jobs_get_final _ _ _ _ _ hlt]
    exact stepJob_orphan _ _ _ _ _ _ hfront hstate hpid hp halive
  · intro hx
    unfold scanPass at hx
    rcases runPass_launches_mem _ _ _ _ _ hx with h | ⟨jb, hjb, hq⟩
    · rw [hlaunches] at h
      exact absurd h (List.not_mem_nil i)
    · rw [hjob] at hjb
      injection hjb with hjb
      rw [← hjb, hstate] at hq
      exact absurd hq (by decide)

theorem orphan_recovery_witness :
    (∃ t, (scanPass clockId (fun _ => envDead) (initPass (save_jobs [jobOrp]))).jobs[0]? =
        some { jobOrp with state := "failed", end_time := some (clockId t) }) ∧
    0 ∉ (scanPass clockId (fun _ => envDead) (initPass (save_jobs [jobOrp]))).launches :=
  orphan_recovery clockId (fun _ => envDead) (initPass (save_jobs [jobOrp])) 0 jobOrp 7
    (by decide) rfl rfl (by decide) rfl rfl

/-- C4: a `queued` record whose launch succeeds and whose log renames
succeed ends the scan pass `finished` when the exit code is 0 and `failed`
when it is nonzero, with `startTime` and `endTime` taken from two
consecutive reads of the (strictly increasing) clock, so
`endTime > startTime`. -/
theorem queued_job_exit_code (clock : Nat → Int) (envs : Nat → JobEnv) (st : PassState)
    (i : Nat) (job : Job) (pid : Int)
    (hjob : st.jobs[i]? = some job) (hstate : job.state = "queued")
    (hlaunch : (envs i).launch = some pid) (hrename : (envs i).renameOk = true)
    (hclock : StrictMono clock) :
    ∃ t, (scanPass clock envs st).jobs[i]? =
        some { job with
               state := (if (envs i).waitRet = 0 then "finished" else "failed"),
               pid := some pid, start_time := some (clock t),
               end_time := some (clock (t + 1)) } ∧
      clock t < clock (t + 1) := by
  have hlt : i < st.jobs.length := getElem_lt_of_eq_some hjob
  have hfront : (runPass clock envs i st).jobs[i]? = some job := by
    rw [runPass_jobs_get_of_le _ _ _ _ _ (le_refl i)]
    exact hjob
  refine ⟨(runPass clock envs i st).tick, ?_, hclock (Nat.lt_succ_self _)⟩
  unfold scanPass
  rw [runPass_jobs_get_final _ _ _ _ _ hlt]
  exact stepJob_start _ _ _ _ _ _ hfront hstate hlaunch hrename

theorem queued_job_exit_code_witness :
    ∃ t, (scanPass clockId (fun _ => envRun) (initPass (save_jobs [jobQW]))).jobs[0]? =
        some { jobQW with
               state := (if envRun.waitRet = 0 then "finished" else "failed"),
               pid := some 9, start_time := some (clockId t),
               end_time := some (clockId (t + 1)) } ∧
      clockId t < clockId (t + 1) :=
  queued_job_exit_code clockId (fun _ => envRun) (initPass (save_jobs [jobQW])) 0 jobQW 9
    (by decide) rfl rfl rfl (by intro a b h; show (a : Int) < (b : Int); exact_mod_cast h)

/-- C1 (refuting evaluation): the daemon blocks in `p.wait()`, so for a job
it starts the timeout check only runs after the process has already exited
and the state has left `running`.  Concretely: a queued job with timeout 1
whose process runs for 100 time units ends the pass `finished` with
`endTime - startTime = 100 > 1` — it was never transitioned to `timeout`,
and its stored state stayed `running` throughout the 100-unit wait. -/
theorem blocking_wait_defeats_timeout :
    ((scanPass clockHund (fun _ => envSleep) (initPass (save_jobs [jobSleep]))).jobs[0]? =
      some { jobSleep with
             state := "finished", pid := some 77,
             start_time := some 0, end_time := some 100 }) ∧
    (100 : Int) - 0 > jobSleep.timeout := by
  exact ⟨by decide, by decide⟩

/-- C7 (refuting evaluation): the `os.rename` calls sit inside the same
`try:` as the launch and wait, so a rename failure falls into the
`except:` block, which overwrites the exit-code-determined state.  For the
same exit code 0: with renames succeeding the job ends `finished` with
`endTime = 1`; with renames failing it ends `failed` with `endTime = 2` —
the rename failure does alter both the final state and `endTime`. -/
theorem rename_failure_alters_transition :
    ((scanPass clockId (fun _ => envNoRen) (initPass (save_jobs [jobQW]))).jobs[0]? =
      some { jobQW with
             state := "failed", pid := some 9,
             start_time := some 0, end_time := some 2 }) ∧
    ((scanPass clockId (fun _ => envRun) (initPass (save_jobs [jobQW]))).jobs[0]? =
      some { jobQW with
             state := "finished", pid := some 9,
             start_time := some 0, end_time := some 1 }) := by
  exact ⟨by decide, by decide⟩

/-- C4 counterexample: a queued job whose process exits with code 0 does
*not* always end `finished`: when the log renames fail, the `except:` block
overwrites the state with `failed` (and restamps `endTime`), so the claim
as stated — final state determined by the exit code alone — is false at
this concrete input. -/
theorem rename_failure_fails_zero_exit :
    ((scanPass clockId (fun _ => envNoRen) (initPass (save_jobs [jobSleep]))).jobs[0]? =
      some { jobSleep with
             state := "failed", pid := some 9,
             start_time := some 0, end_time := some 2 }) ∧
    envNoRen.waitRet = 0 := by
  exact ⟨by decide, rfl⟩
